import Mathlib

/-!
Verification of the Looper core of the music-visualizer repository
(`src/lib/Looper.ts`) against its natural-language specification.

The embedding models JavaScript numbers as rationals (`ℚ`).  Where the
source relies on JavaScript coercion semantics (multiplying an index by an
array, `Math.round`, property access on `undefined`) those semantics are
made explicit: `JSNum` adds a `nan` value for coerced non-numeric results,
`jround q = ⌊q + 1/2⌋` is JavaScript `Math.round` on finite values, and a
`JSResult` type records that reading a field of `undefined` throws.
-/

namespace Looper

/-- A JavaScript number that may be `NaN`.  Needed because
`buildStaticIntervals` computes `i * analysis[type]`, multiplying the loop
index by the array under construction; `ToNumber` of a non-empty array of
objects is `NaN`. -/
inductive JSNum where
  | nan : JSNum
  | num : ℚ → JSNum
deriving DecidableEq, Inhabited

/-- JavaScript `ToNumber` of an array of plain objects: the empty array
coerces through `""` to `0`; a non-empty array of objects coerces to `NaN`. -/
def jsArrayToNumber (len : ℕ) : JSNum :=
  if len = 0 then JSNum.num 0 else JSNum.nan

/-- JavaScript multiplication of the (numeric) loop index with a possibly
non-numeric value: anything times `NaN` is `NaN`. -/
def jsMulIndex (i : ℕ) (x : JSNum) : JSNum :=
  match x with
  | JSNum.nan => JSNum.nan
  | JSNum.num q => JSNum.num (i * q)

/-- JavaScript `Math.round` on a finite value: round half up. -/
def jround (q : ℚ) : ℤ := ⌊q + 1/2⌋

/-- The five interval granularities of `state.intervalTypes`. -/
inductive IntervalType where
  | tatums | segments | beats | bars | sections
deriving DecidableEq, BEq, Inhabited

/-- `['tatums', 'segments', 'beats', 'bars', 'sections']` (Looper.ts:50). -/
def intervalTypes : List IntervalType :=
  [IntervalType.tatums, IntervalType.segments, IntervalType.beats,
   IntervalType.bars, IntervalType.sections]

/-- The `duration` table of `buildStaticIntervals` for the non-tatum
granularities (Looper.ts:296-302): beats = base, segments = base/2,
sections = base·16, bars = base·4.  (`duration.tatums` is an array and is
handled separately.) -/
def granDuration (base : ℚ) : IntervalType → ℚ
  | IntervalType.beats => base
  | IntervalType.segments => base / 2
  | IntervalType.sections => base * 16
  | IntervalType.bars => base * 4
  | IntervalType.tatums => 0

/-- `loudness_max_time: 0.5 * duration[type]` (Looper.ts:323).  For
tatums, `duration.tatums` is the two-element array, so the product is
`NaN`. -/
def granLoudnessMaxTime (base : ℚ) : IntervalType → JSNum
  | IntervalType.tatums => JSNum.nan
  | t => JSNum.num ((1/2) * granDuration base t)

/-- One synthesized interval as pushed by `buildStaticIntervals`
(Looper.ts:318-324). -/
structure StaticInterval where
  start : JSNum
  duration : ℚ
  loudness_start : ℚ
  loudness_max : ℚ
  loudness_max_time : JSNum
deriving DecidableEq, Inhabited

/-- `tatumDuration = i % 2 === 0 ? Math.round(duration.tatums[0])
: Math.round(duration.tatums[1])` (Looper.ts:316-317). -/
def tatumDur (base : ℚ) (i : ℕ) : ℚ :=
  if i % 2 = 0 then (jround (base * (2/3)) : ℚ) else (jround (base * (1/3)) : ℚ)

/-- `tatumStart = analysis.tatums[i-1] ? Math.round(prev.start +
prev.duration) : 0` (Looper.ts:310-314). -/
def tatumStart (base : ℚ) : ℕ → ℚ
  | 0 => 0
  | i + 1 => (jround (tatumStart base i + tatumDur base i) : ℚ)

/-- The interval pushed at loop index `i` for granularity `t`
(Looper.ts:318-324).  For non-tatum granularities the pushed `start` is
`i * analysis[type]` — the index times the array built so far, which has
`i` elements at that point. -/
def staticIntervalAt (base : ℚ) (t : IntervalType) (i : ℕ) : StaticInterval :=
  { start :=
      match t with
      | IntervalType.tatums => JSNum.num (tatumStart base i)
      | _ => jsMulIndex i (jsArrayToNumber i)
    duration :=
      match t with
      | IntervalType.tatums => tatumDur base i
      | _ => granDuration base t
    loudness_start := -30 + ((i : ℚ) / 10000) * 20
    loudness_max := -25 + ((i : ℚ) / 10000) * 20
    loudness_max_time := granLoudnessMaxTime base t }

/-- `buildStaticIntervals` (Looper.ts:294-329): 10000 intervals per
granularity. -/
def buildStaticIntervals (base : ℚ) (t : IntervalType) : List StaticInterval :=
  (List.range 10000).map (staticIntervalAt base t)

/-! ### Interval resolution (`setActiveIntervals`, Looper.ts:112-133)

The resolver operates on a granularity sequence of interval descriptors
with numeric `start` fields (the shape both of an externally supplied
track analysis and of the intended synthesized one). -/

/-- An interval descriptor as read by the resolver: `start` and
`duration`. -/
structure Interval where
  start : ℚ
  duration : ℚ
deriving DecidableEq, Inhabited

/-- The loop body of `determineInterval` (Looper.ts:116-119), with the
remaining iteration count made explicit as structural fuel.  At index `i`:
return `i` if it is the last index; return `i` if
`analysis[i].start < progress && progress < analysis[i+1].start`;
otherwise continue with `i+1`. -/
def determineIntervalGo (analysis : List Interval) (progress : ℚ) :
    ℕ → ℕ → Option ℕ
  | 0, _ => none
  | fuel + 1, i =>
    if h1 : i < analysis.length then
      if h2 : i = analysis.length - 1 then some i
      else if (analysis.get ⟨i, h1⟩).start < progress ∧
              progress < (analysis.get ⟨i + 1, by omega⟩).start then some i
      else determineIntervalGo analysis progress fuel (i + 1)
    else none

/-- `determineInterval` (Looper.ts:113-120): scan from index 0.  The JS
loop runs at most `analysis.length` iterations; an empty sequence falls
off the loop and yields `undefined` (`none`). -/
def determineInterval (analysis : List Interval) (progress : ℚ) : Option ℕ :=
  determineIntervalGo analysis progress analysis.length 0

/-- `analysis.Pairwise` ordering by `start`: the TimingMap invariant that
sequences are ordered by `start`. -/
def OrderedByStart (analysis : List Interval) : Prop :=
  analysis.Pairwise (fun a b => a.start ≤ b.start)

instance (analysis : List Interval) : Decidable (OrderedByStart analysis) := by
  unfold OrderedByStart
  exact List.instDecidablePairwise analysis

/-! ### Volume sampling (`getVolume`, Looper.ts:138-164) -/

/-- A segment descriptor of the fine-grained analysis, as read when
`getVolume` fetches `segments[index + 1].loudness_start`. -/
structure SegmentData where
  start : ℚ
  duration : ℚ
  loudness_start : ℚ
  loudness_max : ℚ
  loudness_max_time : ℚ
deriving DecidableEq, Inhabited

/-- The fields destructured from the active segment interval at
Looper.ts:139-147: the resolved segment descriptor plus its `index` and
the `elapsed` time set by `setActiveIntervals`. -/
structure ActiveSegment where
  loudness_max : ℚ
  loudness_start : ℚ
  loudness_max_time : ℚ
  duration : ℚ
  elapsed : ℚ
  start : ℚ
  index : ℕ
deriving DecidableEq, Inhabited

/-- d3's `interpolateNumber(a, b)(t) = a * (1 - t) + b * t`. -/
def interpolateNumber (a b t : ℚ) : ℚ := a * (1 - t) + b * t

/-- `getVolume` (Looper.ts:138-164).  If there is no successor segment,
return 0.  Otherwise interpolate: before `loudness_max_time`, from
`loudness_start` to `loudness_max` at clamped fraction
`elapsed / loudness_max_time`; afterwards, from `loudness_max` to the
next segment's `loudness_start` at clamped fraction
`(current - (start + loudness_max_time)) / (duration - loudness_max_time)`
where `current = start + elapsed`. -/
def getVolume (segments : List SegmentData) (interval : ActiveSegment) : ℚ :=
  if h : interval.index + 1 < segments.length then
    let next := (segments.get ⟨interval.index + 1, h⟩).loudness_start
    let current := interval.start + interval.elapsed
    if interval.elapsed < interval.loudness_max_time then
      interpolateNumber interval.loudness_start interval.loudness_max
        (max (min 1 (interval.elapsed / interval.loudness_max_time)) 0)
    else
      let startTwo := interval.start + interval.loudness_max_time
      let elapsedTwo := current - startTwo
      let durationTwo := interval.duration - interval.loudness_max_time
      interpolateNumber interval.loudness_max next
        (max (min 1 (elapsedTwo / durationTwo)) 0)
  else 0

/-- Clamp to [0,1] exactly as the source writes it:
`Math.max(Math.min(1, x), 0)`. -/
def clamp01 (x : ℚ) : ℚ := max (min 1 x) 0

/-- The VolumeSampler contract stated by the spec (refinement side):
two-phase piecewise linear interpolation, phase fractions
`elapsed / loudness_max_time` and
`(elapsed - loudness_max_time) / (duration - loudness_max_time)`, each
clamped to [0,1]. -/
def sampleVolumeSpec (interval : ActiveSegment) (next : ℚ) : ℚ :=
  if interval.elapsed < interval.loudness_max_time then
    interpolateNumber interval.loudness_start interval.loudness_max
      (clamp01 (interval.elapsed / interval.loudness_max_time))
  else
    interpolateNumber interval.loudness_max next
      (clamp01 ((interval.elapsed - interval.loudness_max_time) /
        (interval.duration - interval.loudness_max_time)))

/-! ### Volume queues (Looper.ts:222-281) -/

/-- One entry of `state.volumeQueues` (Looper.ts:233-242). -/
structure VolumeQueue where
  totalSamples : ℕ
  smoothing : ℕ
  values : List ℚ
  volume : ℚ
  average : ℚ
  min : ℚ
  max : ℚ
  mode : String
deriving DecidableEq, Inhabited

/-- The fresh queue object written by `registerQueue`
(Looper.ts:233-242): bootstrap values `[0, 1]`, volume 0.5, average 0.5,
min 0, max 1. -/
def bootstrapQueue (totalSamples smoothing : ℕ) (mode : String) : VolumeQueue :=
  { totalSamples := totalSamples
    smoothing := smoothing
    values := [0, 1]
    volume := 1/2
    average := 1/2
    min := 0
    max := 1
    mode := mode }

/-- The map `state.volumeQueues`, a JS object keyed by name; a missing
key reads as `undefined` (`none`). -/
def VolumeQueues : Type := String → Option VolumeQueue

/-- `registerQueue` (Looper.ts:222-243): unconditionally assign
`volumeQueues[name]` a fresh bootstrap queue. -/
def registerQueue (qs : VolumeQueues) (name : String)
    (totalSamples smoothing : ℕ) (mode : String) : VolumeQueues :=
  fun k => if k = name then some (bootstrapQueue totalSamples smoothing mode) else qs k

/-- Outcome of a JavaScript expression that may throw: `ok` a number,
`undef` (the expression evaluates to `undefined`), or `typeError`
(a `TypeError` is thrown, e.g. reading a property of `undefined`). -/
inductive JSResult where
  | ok : ℚ → JSResult
  | undef : JSResult
  | typeError : JSResult
deriving DecidableEq, Inhabited

/-- `getVolumeQueue` (Looper.ts:268-270):
`return this.state.volumeQueues[name].volume`.  When `name` is not
registered, `volumeQueues[name]` is `undefined` and reading `.volume`
throws a `TypeError`. -/
def getVolumeQueue (qs : VolumeQueues) (name : String) : JSResult :=
  match qs name with
  | some q => JSResult.ok q.volume
  | none => JSResult.typeError

/-- The empty `volumeQueues` map (no queue registered). -/
def emptyVolumeQueues : VolumeQueues := fun _ => none

/-- The `while (queue.values.length > queue.totalSamples) queue.values.pop()`
loop of `processVolumeQueues` (Looper.ts:251-253), with the iteration
count made explicit as structural fuel (each `pop` removes the last
element). -/
def popWhileExceeds (cap : ℕ) : ℕ → List ℚ → List ℚ
  | 0, vals => vals
  | fuel + 1, vals =>
    if vals.length > cap then popWhileExceeds cap fuel vals.dropLast else vals

/-- The per-queue values update of one `processVolumeQueues` tick
(Looper.ts:250-253): `unshift` the new sample, then pop from the tail
while over capacity. -/
def processQueueValues (cap : ℕ) (vals : List ℚ) (v : ℚ) : List ℚ :=
  popWhileExceeds cap (v :: vals).length (v :: vals)

/-! ### Hooks (`subscribeHooks`/`on`, Looper.ts:101-107, 180-182)

Callbacks are modelled by opaque identifiers (`ℕ`); the hooks store maps
each hook key to the list of registered callback identifiers. -/

/-- The keys of the `hooks` record (Looper.ts:36-42). -/
inductive HookKey where
  | tatum | segment | beat | bar | «section»
deriving DecidableEq, BEq, Inhabited

/-- A hooks store: for each key, the registered callbacks in
registration order. -/
def Hooks : Type := HookKey → List ℕ

/-- The initial hooks record: every list empty (Looper.ts:36-42). -/
def emptyHooks : Hooks := fun _ => []

/-- `on(interval, method)` (Looper.ts:180-182): push the callback onto
`hooks[interval]`.  (Named `onHook` because `on` is notation in
Mathlib.) -/
def onHook (hooks : Hooks) (k : HookKey) (cb : ℕ) : Hooks :=
  fun k2 => if k2 = k then hooks k2 ++ [cb] else hooks k2

/-- `subscribeHooks` (Looper.ts:101-107) registers, for every interval
type `t`, a watcher on `activeIntervals[t]` whose body runs
`this.hooks.segment.forEach(h => h(v))` — the segment hook list,
regardless of `t`.  Modelled from the spec: the ReactiveStore (`Observe`,
not under `src/`) invokes the watchers registered for a key exactly when
that key's value is replaced, so the pairs below record (watched key,
hook list fired). -/
def subscribedWatchers : List (IntervalType × HookKey) :=
  intervalTypes.map (fun t => (t, HookKey.segment))

/-- The callbacks that run when the active interval of granularity
`changed` is replaced (i.e. its index changes): every watcher registered
on that key fires its recorded hook list. -/
def hooksFiredOnChange (hooks : Hooks) (changed : IntervalType) : List ℕ :=
  (subscribedWatchers.filter (fun p => p.1 == changed)).flatMap (fun p => hooks p.2)

/-! ### Concrete instances used by per-claim witnesses and counterexamples -/

/-- A small ordered three-interval sequence with starts 0, 10, 20. -/
def c2seq : List Interval := [⟨0, 10⟩, ⟨10, 10⟩, ⟨20, 10⟩]

/-- A small ordered two-interval sequence with starts 0 and 7. -/
def c5seq : List Interval := [⟨0, 5⟩, ⟨7, 5⟩]

/-- A one-segment analysis: its only segment has no successor. -/
def c6segments : List SegmentData := [⟨0, 2000, -30, -25, 1000⟩]

/-- An active segment whose `index` is the last (and only) index of
`c6segments`. -/
def c6interval : ActiveSegment :=
  { loudness_max := -25, loudness_start := -30, loudness_max_time := 1000
    duration := 2000, elapsed := 350, start := 0, index := 0 }

/-- A two-segment analysis; the successor's `loudness_start` is −28. -/
def c7segments : List SegmentData := [⟨0, 2000, -30, -25, 1000⟩, ⟨2000, 2000, -28, -23, 1000⟩]

/-- An active segment (index 0 of `c7segments`) in phase one. -/
def c7interval : ActiveSegment :=
  { loudness_max := -25, loudness_start := -30, loudness_max_time := 1000
    duration := 2000, elapsed := 500, start := 0, index := 0 }

/-- A queues map with one registered queue, used to exercise
re-registration. -/
def c10queues : VolumeQueues := registerQueue emptyVolumeQueues "energy" 5 3 "max"

end Looper

namespace Looper

/-! ## Helper lemmas -/

theorem buildStaticIntervals_length (base : ℚ) (t : IntervalType) :
    (buildStaticIntervals base t).length = 10000 := by
  simp [buildStaticIntervals]

theorem buildStaticIntervals_getD (base : ℚ) (t : IntervalType) (i : ℕ)
    (d : StaticInterval) (h : i < 10000) :
    (buildStaticIntervals base t).getD i d = staticIntervalAt base t i := by
  simp [buildStaticIntervals, List.getD, h]

theorem jround_intCast (n : ℤ) : jround (n : ℚ) = n := by
  unfold jround
  rw [add_comm, Int.floor_add_int]
  norm_num

theorem tatumStart_exists_int (base : ℚ) (i : ℕ) :
    ∃ n : ℤ, tatumStart base i = (n : ℚ) := by
  cases i with
  | zero => exact ⟨0, by simp [tatumStart]⟩
  | succ j => exact ⟨jround (tatumStart base j + tatumDur base j), rfl⟩

theorem tatumDur_exists_int (base : ℚ) (i : ℕ) :
    ∃ n : ℤ, tatumDur base i = (n : ℚ) := by
  unfold tatumDur
  by_cases h : i % 2 = 0
  · exact ⟨jround (base * (2/3)), by rw [if_pos h]⟩
  · exact ⟨jround (base * (1/3)), by rw [if_neg h]⟩

/-- The `Math.round` in the tatum `start` accumulation is the identity:
both summands are already integers, so no rounding distortion occurs. -/
theorem tatumStart_succ (base : ℚ) (i : ℕ) :
    tatumStart base (i + 1) = tatumStart base i + tatumDur base i := by
  obtain ⟨n, hn⟩ := tatumStart_exists_int base i
  obtain ⟨m, hm⟩ := tatumDur_exists_int base i
  show (jround (tatumStart base i + tatumDur base i) : ℚ) = _
  rw [hn, hm, ← Int.cast_add, jround_intCast, Int.cast_add]

/-- `start` is monotone along an ordered sequence. -/
theorem start_mono (l : List Interval)
    (hs : l.Pairwise (fun a b => a.start ≤ b.start)) (i j : ℕ)
    (hi : i < l.length) (hj : j < l.length) (hij : i ≤ j) :
    (l.get ⟨i, hi⟩).start ≤ (l.get ⟨j, hj⟩).start := by
  rcases eq_or_lt_of_le hij with h | h
  · subst h; exact le_refl _
  · exact List.pairwise_iff_get.mp hs ⟨i, hi⟩ ⟨j, hj⟩ h

/-- If every pairwise window test from index `i` on fails, the scan runs
to the final index and returns it. -/
theorem determineIntervalGo_all_skip (analysis : List Interval) (p : ℚ) :
    ∀ fuel i, analysis.length ≤ i + fuel → i < analysis.length →
    (∀ j (hj1 : j < analysis.length) (hj2 : j + 1 < analysis.length), i ≤ j →
      ¬((analysis.get ⟨j, hj1⟩).start < p ∧
        p < (analysis.get ⟨j + 1, hj2⟩).start)) →
    determineIntervalGo analysis p fuel i = some (analysis.length - 1) := by
  intro fuel
  induction fuel with
  | zero => intro i hfuel hi hcond; omega
  | succ k ih =>
    intro i hfuel hi hcond
    rw [determineIntervalGo, dif_pos hi]
    by_cases hlast : i = analysis.length - 1
    · rw [dif_pos hlast, hlast]
    · rw [dif_neg hlast]
      have hi1 : i + 1 < analysis.length := by omega
      rw [if_neg (hcond i hi hi1 (le_refl i))]
      exact ih (i + 1) (by omega) hi1 (fun j hj1 hj2 hij => hcond j hj1 hj2 (by omega))

theorem popWhileExceeds_spec (cap : ℕ) :
    ∀ fuel vals, vals.length ≤ cap + fuel →
    popWhileExceeds cap fuel vals = vals.take cap := by
  intro fuel
  induction fuel with
  | zero =>
    intro vals h
    rw [popWhileExceeds]
    exact (List.take_of_length_le (by omega)).symm
  | succ k ih =>
    intro vals h
    rw [popWhileExceeds]
    by_cases hlen : vals.length > cap
    · rw [if_pos hlen, ih vals.dropLast (by simp [List.length_dropLast]; omega)]
      rw [List.dropLast_eq_take, List.take_take, Nat.min_eq_left (by omega)]
    · rw [if_neg hlen]
      exact (List.take_of_length_le (by omega)).symm

/-- One tick's queue-values update is: prepend the sample, keep the first
`cap` entries (dropping from the tail). -/
theorem processQueueValues_eq_take (cap : ℕ) (vals : List ℚ) (v : ℚ) :
    processQueueValues cap vals v = (v :: vals).take cap :=
  popWhileExceeds_spec cap (v :: vals).length (v :: vals) (by omega)

theorem take_append_take (cap : ℕ) (xs ys : List ℚ) :
    (xs ++ ys.take cap).take cap = (xs ++ ys).take cap := by
  rw [List.take_append_eq_append_take, List.take_append_eq_append_take,
    List.take_take, Nat.min_eq_left (by omega)]

theorem foldl_processQueueValues (cap : ℕ) :
    ∀ (samples : List ℚ) (v : ℚ) (init : List ℚ),
    List.foldl (processQueueValues cap) init (v :: samples)
      = ((v :: samples).reverse ++ init).take cap := by
  intro samples
  induction samples with
  | nil => intro v init; simp [processQueueValues_eq_take]
  | cons w rest ih =>
    intro v init
    rw [List.foldl_cons, processQueueValues_eq_take, ih w ((v :: init).take cap),
      take_append_take]
    congr 1
    simp [List.append_assoc]

theorem interpolateNumber_bounds (a b t : ℚ) (h0 : 0 ≤ t) (h1 : t ≤ 1) :
    min a b ≤ interpolateNumber a b t ∧ interpolateNumber a b t ≤ max a b := by
  unfold interpolateNumber
  rcases le_total a b with hab | hab
  · rw [min_eq_left hab, max_eq_right hab]
    constructor <;> nlinarith
  · rw [min_eq_right hab, max_eq_left hab]
    constructor <;> nlinarith

theorem clamp01_nonneg (x : ℚ) : 0 ≤ clamp01 x := le_max_right _ _

theorem clamp01_le_one (x : ℚ) : clamp01 x ≤ 1 :=
  max_le (min_le_left _ _) zero_le_one

/-! ## Claim theorems -/

/-- C1: the claim says the synthesized non-tatum interval `i` is placed
at `start = i × duration[granularity]`.  The code instead computes
`i * analysis[type]` — index times the array built so far — which
coerces to `NaN` for every `i ≥ 1`; already at `base = 2000`, beats,
`i = 1` the stored `start` is `NaN`, not `1 × 2000`. -/
theorem C1_nonTatum_start_is_nan :
    ((buildStaticIntervals 2000 IntervalType.beats).getD 1 default).start = JSNum.nan
    ∧ JSNum.nan ≠ JSNum.num (1 * granDuration 2000 IntervalType.beats) := by
  constructor
  · rw [buildStaticIntervals_getD 2000 IntervalType.beats 1 default (by norm_num)]
    rfl
  · decide

/-- C2 (counterexample): on the ordered sequence with starts 0, 10, 20,
a progress value exactly equal to `sequence[1].start = 10` does not
resolve to index 1 as the claim states: both window bounds are strict, so
every pairwise test fails and the scan falls through to the last index
2. -/
theorem C2_boundary_counterexample :
    determineInterval c2seq 10 = some 2 ∧ (2 : ℕ) ≠ 1 := by
  constructor
  · decide
  · decide

/-- C2 (amended): for an ordered sequence, a progress value exactly equal
to any interval's `start` satisfies no strict pairwise window test, so
`determineInterval` returns the last index, not the index of the interval
that starts there. -/
theorem C2_boundary_resolves_to_last (analysis : List Interval) (p : ℚ)
    (hord : OrderedByStart analysis) (i : ℕ) (hi : i < analysis.length)
    (hp : p = (analysis.get ⟨i, hi⟩).start) :
    determineInterval analysis p = some (analysis.length - 1) := by
  have hs : analysis.Pairwise (fun a b => a.start ≤ b.start) := hord
  unfold determineInterval
  apply determineIntervalGo_all_skip analysis p analysis.length 0 (by omega) (by omega)
  intro j hj1 hj2 _
  rintro ⟨hlt, hgt⟩
  rcases le_or_lt i j with hij | hij
  · have hm := start_mono analysis hs i j hi hj1 hij
    rw [hp] at hlt
    exact absurd hlt (not_lt.mpr hm)
  · have hm := start_mono analysis hs (j + 1) i hj2 hi (by omega)
    rw [hp] at hgt
    exact absurd hgt (not_lt.mpr hm)

theorem C2_boundary_resolves_to_last_witness :
    OrderedByStart c2seq ∧ 1 < c2seq.length
    ∧ (10 : ℚ) = (c2seq.get ⟨1, by decide⟩).start
    ∧ determineInterval c2seq 10 = some (c2seq.length - 1) :=
  ⟨by decide, by decide, by decide,
    C2_boundary_resolves_to_last c2seq 10 (by decide) 1 (by decide) (by decide)⟩

/-- C3: the claim says a callback registered via `on(g, cb)` fires when
and only when granularity `g`'s active interval changes.  In the code
every watcher body runs `this.hooks.segment` (Looper.ts:104): a callback
registered for `beat` never fires on a beats change (it yields `[]`, not
`[7]`), while a `segment` callback fires on a beats change. -/
theorem C3_hook_dispatch_always_segment :
    hooksFiredOnChange (onHook emptyHooks HookKey.beat 7) IntervalType.beats = []
    ∧ ([] : List ℕ) ≠ [7]
    ∧ hooksFiredOnChange (onHook emptyHooks HookKey.segment 9) IntervalType.beats = [9] := by
  refine ⟨by decide, by decide, by decide⟩

/-- C4 (counterexample): the claim says querying an unregistered name
yields an absent/undefined result rather than throwing.  The code reads
`.volume` off `volumeQueues[name]`, which is `undefined` for an
unregistered name, so a `TypeError` is thrown. -/
theorem C4_unregistered_throws_counterexample :
    getVolumeQueue emptyVolumeQueues "energy" = JSResult.typeError
    ∧ JSResult.typeError ≠ JSResult.undef :=
  ⟨rfl, by decide⟩

/-- C4 (amended): for every name not present in `volumeQueues`,
`getVolumeQueue` throws a `TypeError` (property read on `undefined`)
rather than returning an absent/undefined result. -/
theorem C4_unregistered_throws (qs : VolumeQueues) (name : String)
    (h : qs name = none) : getVolumeQueue qs name = JSResult.typeError := by
  unfold getVolumeQueue
  rw [h]

theorem C4_unregistered_throws_witness :
    emptyVolumeQueues "beatQ" = none
    ∧ getVolumeQueue emptyVolumeQueues "beatQ" = JSResult.typeError :=
  ⟨rfl, C4_unregistered_throws emptyVolumeQueues "beatQ" rfl⟩

/-- C5: for every non-empty ordered sequence and every progress at or
beyond the last interval's `start` (in particular beyond its nominal
end), `determineInterval` returns the last index — it never fails or runs
out of range. -/
theorem C5_beyond_last_resolves_to_last (analysis : List Interval) (p : ℚ)
    (hne : 0 < analysis.length) (hord : OrderedByStart analysis)
    (hp : (analysis.get ⟨analysis.length - 1, by omega⟩).start ≤ p) :
    determineInterval analysis p = some (analysis.length - 1) := by
  have hs : analysis.Pairwise (fun a b => a.start ≤ b.start) := hord
  unfold determineInterval
  apply determineIntervalGo_all_skip analysis p analysis.length 0 (by omega) hne
  intro j hj1 hj2 _
  rintro ⟨_, hgt⟩
  have hm := start_mono analysis hs (j + 1) (analysis.length - 1) hj2 (by omega) (by omega)
  exact absurd (lt_of_lt_of_le hgt (le_trans hm hp)) (lt_irrefl p)

theorem C5_beyond_last_resolves_to_last_witness :
    0 < c5seq.length ∧ OrderedByStart c5seq
    ∧ (c5seq.get ⟨c5seq.length - 1, by decide⟩).start ≤ 99
    ∧ determineInterval c5seq 99 = some (c5seq.length - 1) :=
  ⟨by decide, by decide, by decide,
    C5_beyond_last_resolves_to_last c5seq 99 (by decide) (by decide) (by decide)⟩

/-- C6: whenever the active segment has no successor
(`index + 1` is out of range for the segments sequence), `getVolume`
returns exactly 0, regardless of the elapsed time and loudness fields. -/
theorem C6_getVolume_zero_at_last_segment (segments : List SegmentData)
    (interval : ActiveSegment) (h : segments.length ≤ interval.index + 1) :
    getVolume segments interval = 0 := by
  unfold getVolume
  rw [dif_neg (by omega)]

theorem C6_getVolume_zero_at_last_segment_witness :
    c6segments.length ≤ c6interval.index + 1
    ∧ getVolume c6segments c6interval = 0 :=
  ⟨by decide, C6_getVolume_zero_at_last_segment c6segments c6interval (by decide)⟩

/-- C7: for an active segment with a successor, `getVolume` equals the
spec's two-phase clamped piecewise linear interpolation
(`sampleVolumeSpec`), and in each phase the result stays between the
phase's endpoint values (no extrapolation). -/
theorem C7_getVolume_two_phase (segments : List SegmentData)
    (interval : ActiveSegment) (h : interval.index + 1 < segments.length) :
    getVolume segments interval
      = sampleVolumeSpec interval
          ((segments.get ⟨interval.index + 1, h⟩).loudness_start)
    ∧ (interval.elapsed < interval.loudness_max_time →
        min interval.loudness_start interval.loudness_max
            ≤ getVolume segments interval
        ∧ getVolume segments interval
            ≤ max interval.loudness_start interval.loudness_max)
    ∧ (¬ interval.elapsed < interval.loudness_max_time →
        min interval.loudness_max
            ((segments.get ⟨interval.index + 1, h⟩).loudness_start)
            ≤ getVolume segments interval
        ∧ getVolume segments interval
            ≤ max interval.loudness_max
                ((segments.get ⟨interval.index + 1, h⟩).loudness_start)) := by
  have harg : interval.start + interval.elapsed -
      (interval.start + interval.loudness_max_time)
      = interval.elapsed - interval.loudness_max_time := by ring
  have hv : getVolume segments interval
      = sampleVolumeSpec interval
          ((segments.get ⟨interval.index + 1, h⟩).loudness_start) := by
    unfold getVolume sampleVolumeSpec clamp01
    rw [dif_pos h]
    by_cases hph : interval.elapsed < interval.loudness_max_time
    · rw [if_pos hph, if_pos hph]
    · rw [if_neg hph, if_neg hph]
      simp only [harg]
  refine ⟨hv, fun hph => ?_, fun hph => ?_⟩
  · rw [hv]
    unfold sampleVolumeSpec
    rw [if_pos hph]
    exact interpolateNumber_bounds _ _ _ (clamp01_nonneg _) (clamp01_le_one _)
  · rw [hv]
    unfold sampleVolumeSpec
    rw [if_neg hph]
    exact interpolateNumber_bounds _ _ _ (clamp01_nonneg _) (clamp01_le_one _)

theorem C7_getVolume_two_phase_witness :
    c7interval.index + 1 < c7segments.length
    ∧ (getVolume c7segments c7interval = sampleVolumeSpec c7interval (-28)
      ∧ (c7interval.elapsed < c7interval.loudness_max_time →
          min c7interval.loudness_start c7interval.loudness_max
              ≤ getVolume c7segments c7interval
          ∧ getVolume c7segments c7interval
              ≤ max c7interval.loudness_start c7interval.loudness_max)
      ∧ (¬ c7interval.elapsed < c7interval.loudness_max_time →
          min c7interval.loudness_max (-28) ≤ getVolume c7segments c7interval
          ∧ getVolume c7segments c7interval
              ≤ max c7interval.loudness_max (-28))) :=
  ⟨by decide, C7_getVolume_two_phase c7segments c7interval (by decide)⟩

/-- C8 (counterexample): at `base = 2000` the first tatum's duration is
`Math.round(2000 × 2/3) = 1333`, which is not exactly `2000 × (2/3)`, so
the claim's "durations alternate exactly between base×(2/3) and
base×(1/3)" fails. -/
theorem C8_tatum_duration_counterexample :
    ((buildStaticIntervals 2000 IntervalType.tatums).getD 0 default).duration = 1333
    ∧ (1333 : ℚ) ≠ 2000 * (2/3) := by
  constructor
  · rw [buildStaticIntervals_getD 2000 IntervalType.tatums 0 default (by norm_num)]
    norm_num [staticIntervalAt, tatumDur, jround]
  · norm_num

/-- C8 (amended): tatum starts are cumulative exactly as claimed —
`tatum[i+1].start = tatum[i].start + tatum[i].duration` (the `Math.round`
in the accumulation is the identity because both summands are already
integers) — but the durations alternate between the rounded values
`Math.round(base × 2/3)` (even index) and `Math.round(base × 1/3)`
(odd index), not the exact products. -/
theorem C8_tatum_cumulative_rounded (base : ℚ) (i : ℕ) (h : i + 1 < 10000) :
    ((buildStaticIntervals base IntervalType.tatums).getD i default).start
        = JSNum.num (tatumStart base i)
    ∧ ((buildStaticIntervals base IntervalType.tatums).getD i default).duration
        = tatumDur base i
    ∧ ((buildStaticIntervals base IntervalType.tatums).getD (i + 1) default).start
        = JSNum.num (tatumStart base i + tatumDur base i)
    ∧ ((buildStaticIntervals base IntervalType.tatums).getD (i + 1) default).duration
        = (if (i + 1) % 2 = 0 then (jround (base * (2/3)) : ℚ)
           else (jround (base * (1/3)) : ℚ)) := by
  rw [buildStaticIntervals_getD base IntervalType.tatums i default (by omega),
    buildStaticIntervals_getD base IntervalType.tatums (i + 1) default h]
  refine ⟨rfl, rfl, ?_, rfl⟩
  show JSNum.num (tatumStart base (i + 1)) = _
  rw [tatumStart_succ]

theorem C8_tatum_cumulative_rounded_witness :
    (4 : ℕ) + 1 < 10000
    ∧ (((buildStaticIntervals 2000 IntervalType.tatums).getD 4 default).start
          = JSNum.num (tatumStart 2000 4)
      ∧ ((buildStaticIntervals 2000 IntervalType.tatums).getD 4 default).duration
          = tatumDur 2000 4
      ∧ ((buildStaticIntervals 2000 IntervalType.tatums).getD 5 default).start
          = JSNum.num (tatumStart 2000 4 + tatumDur 2000 4)
      ∧ ((buildStaticIntervals 2000 IntervalType.tatums).getD 5 default).duration
          = (if (4 + 1) % 2 = 0 then (jround (2000 * (2/3)) : ℚ)
             else (jround (2000 * (1/3)) : ℚ))) :=
  ⟨by norm_num, C8_tatum_cumulative_rounded 2000 4 (by norm_num)⟩

/-- C9: starting from the bootstrap values `[0, 1]`, after any positive
number of `processVolumeQueues` ticks the retained values are exactly the
first `cap` entries of (new samples, most recent first) ++ (bootstrap),
i.e. each new sample is prepended and eviction drops the oldest entries
(the bootstrap samples first) from the tail; consequently the retained
count never exceeds the capacity. -/
theorem C9_queue_capacity_fifo (cap smoothing : ℕ) (mode : String)
    (v : ℚ) (samples : List ℚ) :
    List.foldl (processQueueValues cap)
        (bootstrapQueue cap smoothing mode).values (v :: samples)
      = ((v :: samples).reverse ++ (bootstrapQueue cap smoothing mode).values).take cap
    ∧ (List.foldl (processQueueValues cap)
        (bootstrapQueue cap smoothing mode).values (v :: samples)).length ≤ cap := by
  constructor
  · exact foldl_processQueueValues cap samples v _
  · rw [foldl_processQueueValues cap samples v _]
    exact List.length_take_le _ _

/-- C10: `registerQueue` on an already-registered name unconditionally
overwrites the stored queue with the fresh bootstrap state (values
`[0, 1]`, volume 0.5, average 0.5, min 0, max 1, and the new
capacity/smoothing/mode), discarding the previous queue. -/
theorem C10_reregister_overwrites (qs : VolumeQueues) (name : String)
    (old : VolumeQueue) (capNew sNew : ℕ) (mNew : String)
    (_hold : qs name = some old) :
    registerQueue qs name capNew sNew mNew name
      = some (bootstrapQueue capNew sNew mNew) := by
  unfold registerQueue
  rw [if_pos rfl]

theorem C10_reregister_overwrites_witness :
    c10queues "energy" = some (bootstrapQueue 5 3 "max")
    ∧ registerQueue c10queues "energy" 2 1 "average" "energy"
        = some (bootstrapQueue 2 1 "average") :=
  ⟨rfl,
    C10_reregister_overwrites c10queues "energy" (bootstrapQueue 5 3 "max") 2 1 "average"
      rfl⟩

end Looper
